import Mathlib

/-!
Verification development for the INFOBI pivot/grid query engine
(`backend/app/services/query_engine.py`, `backend/app/services/cache.py`,
`backend/app/api/reports.py`).

The Python code is shallowly embedded: every SQL-compiling routine becomes a
pure Lean function on the request data, producing the exact strings the Python
f-strings produce (including their whitespace).  Stateful or IO parts
(database execution, Redis) are modelled by explicit parameters: the MD5 hex
digest function is passed as a `String → String` argument, database results
arrive as explicit lists or `Except` values.
-/

/- § Scalar values appearing in requests.
Python filter values and drill group keys are either strings or numbers
(`isinstance(val, str)` dispatch); we model them with this sum. -/
inductive SqlVal where
  | vstr (s : String)
  | vint (n : Int)
deriving DecidableEq, Repr

/-- Python `val.replace("'", "''")`, applied by the engine to string values
before embedding them in SQL text: every single quote becomes two (the
pattern is a single character, so Python's replace acts per character). -/
def sqlEscape (s : String) : String :=
  ⟨s.data.flatMap (fun c => if c = '\'' then ['\'', '\''] else [c])⟩

/-- The value as Python's f-string interpolates it after the
`isinstance(val, str)` escaping step: strings are quote-escaped, numbers are
rendered bare by `str()`. -/
def escapedVal : SqlVal → String
  | .vstr s => sqlEscape s
  | .vint n => toString n

/- § Dialects.
`execute_pivot` / `execute_grid_query` sniff the connection string:
`is_mssql = "mssql" in conn_string.lower()`, `is_mysql = "mysql" in
conn_string`; we enumerate the three backends `build_connection_string`
can produce. -/
inductive Dialect where
  | mssql
  | postgresql
  | mysql
deriving DecidableEq, Repr

def Dialect.is_mssql : Dialect → Bool
  | .mssql => true
  | _ => false

def Dialect.is_mysql : Dialect → Bool
  | .mysql => true
  | _ => false

/-- Python `str.upper()` on the ASCII aggregation/direction names the code
upcases. -/
def pyUpper (s : String) : String := ⟨s.data.map Char.toUpper⟩

/-- The `quote` closure of `execute_pivot`: brackets for MSSQL, backticks for
MySQL, double quotes otherwise. -/
def quoteCol (d : Dialect) (col : String) : String :=
  if d.is_mssql then "[" ++ col ++ "]"
  else if d.is_mysql then "`" ++ col ++ "`"
  else "\"" ++ col ++ "\""

/- § Cache layer (`app/services/cache.py`).
`make_key` hashes the joined arguments with MD5 and keeps 12 hex characters;
the digest function is a parameter of the embedding.  `invalidate_report`
calls `delete(f"*:{report_id}:*")`, and `delete` expands the pattern to
`infobi:{pattern}:*` before `redis.keys`. -/

/-- `CacheService.make_key(prefix, *args)`: `content = ":".join(str(a) for a
in args)`, then `infobi:{prefix}:{md5(content).hexdigest()[:12]}`. -/
def make_key (md5hex : String → String) (keyPrefix : String) (args : List String) : String :=
  let content := String.intercalate ":" args
  let hash_val := (md5hex content).take 12
  "infobi:" ++ keyPrefix ++ ":" ++ hash_val

/-- Key written by `CacheService.set_pivot(report_id, config_hash, data)`. -/
def set_pivot_key (md5hex : String → String) (report_id : Int) (config_hash : String) : String :=
  make_key md5hex "pivot" [toString report_id, config_hash]

/-- Key written by `CacheService.set_query(report_id, query_hash, data)`. -/
def set_query_key (md5hex : String → String) (report_id : Int) (query_hash : String) : String :=
  make_key md5hex "query" [toString report_id, query_hash]

/-- `CacheService.delete(pattern)` deletes the keys matching
`infobi:{pattern}:*`. -/
def delete_glob (pattern : String) : String := "infobi:" ++ pattern ++ ":*"

/-- `CacheService.invalidate_report(report_id)` = `delete(f"*:{report_id}:*")`,
so the glob handed to `redis.keys` is `infobi:*:{report_id}:*:*`. -/
def invalidate_report_glob (report_id : Int) : String :=
  delete_glob ("*:" ++ toString report_id ++ ":*")

/-- Redis `KEYS`-style glob matching over characters: `*` matches any
(possibly empty) sequence, `?` matches one character, anything else matches
itself. -/
def globMatch : List Char → List Char → Bool
  | [], [] => true
  | '*' :: ps, [] => globMatch ps []
  | '*' :: ps, c :: cs => globMatch ps (c :: cs) || globMatch ('*' :: ps) cs
  | '?' :: ps, _ :: cs => globMatch ps cs
  | p :: ps, c :: cs => (p == c) && globMatch ps cs
  | _ :: _, [] => false
  | [], _ :: _ => false
termination_by p s => (p.length, s.length)

/-- Number of `':'` characters in a character list. -/
def colons : List Char → Nat
  | [] => 0
  | c :: cs => (if c = ':' then 1 else 0) + colons cs

theorem colons_append (a b : List Char) : colons (a ++ b) = colons a + colons b := by
  induction a with
  | nil => simp [colons]
  | cons c cs ih => simp [colons, ih]; omega

theorem colons_eq_zero_of_not_mem {l : List Char} (h : ':' ∉ l) : colons l = 0 := by
  induction l with
  | nil => rfl
  | cons c cs ih =>
    simp only [List.mem_cons, not_or] at h
    have hc : ¬ (c = ':') := fun hc => h.1 hc.symm
    simp [colons, ih h.2, if_neg hc]

/-- A wildcard never stands for a mandatory colon, but every literal `':'` of
the pattern consumes a distinct `':'` of the subject: a glob match forces at
least as many colons in the subject as in the pattern. -/
theorem colons_le_of_globMatch :
    ∀ (p s : List Char), globMatch p s = true → colons p ≤ colons s := by
  have hstar : ¬ (('*' : Char) = ':') := by decide
  have hq : ¬ (('?' : Char) = ':') := by decide
  intro p s
  induction p, s using globMatch.induct with
  | case1 => intro h; exact le_refl _
  | case2 ps ih =>
    intro h
    simp only [globMatch] at h
    simpa [colons, if_neg hstar] using ih h
  | case3 ps c cs ih1 ih2 =>
    intro h
    simp only [globMatch, Bool.or_eq_true] at h
    rcases h with h | h
    · simpa [colons, if_neg hstar] using ih1 h
    · have h1 := ih2 h
      have h2 : colons cs ≤ colons (c :: cs) := by
        by_cases hc : c = ':' <;> simp [colons, hc]
      exact le_trans h1 h2
  | case4 ps c cs ih =>
    intro h
    simp only [globMatch] at h
    have h1 := ih h
    by_cases hc : c = ':' <;> simp [colons, if_neg hq, hc] <;> omega
  | case5 p ps c cs hp1 hp2 ih =>
    intro h
    simp only [globMatch, Bool.and_eq_true, beq_iff_eq] at h
    obtain ⟨rfl, h⟩ := h
    have h1 := ih h
    by_cases hc : p = ':' <;> simp [colons, hc] <;> omega
  | case6 p ps hp =>
    intro h
    simp [globMatch] at h
  | case7 c cs =>
    intro h
    simp [globMatch] at h

theorem data_append (a b : String) : (a ++ b).data = a.data ++ b.data := rfl

/-- Any key produced by `make_key` with a colon-free prefix has exactly two
colons: the MD5 hex digest that ends it can never contain one. -/
theorem colons_make_key (md5hex : String → String) (keyPrefix : String)
    (args : List String) (hkp : colons keyPrefix.data = 0)
    (hmd5 : ∀ s, ':' ∉ (md5hex s).data) :
    colons (make_key md5hex keyPrefix args).data = 2 := by
  have htake : ':' ∉ ((md5hex (String.intercalate ":" args)).take 12).data := by
    rw [String.data_take]
    intro hmem
    exact hmd5 _ (List.take_subset _ _ hmem)
  have h0 := colons_eq_zero_of_not_mem htake
  have h1 : colons ['i', 'n', 'f', 'o', 'b', 'i', ':'] = 1 := by decide
  have h2 : colons [':'] = 1 := by decide
  simp only [make_key, data_append, colons_append]
  omega

/-- The glob `invalidate_report` hands to `redis.keys` always holds at least
four colons. -/
theorem colons_invalidate_glob (report_id : Int) :
    4 ≤ colons (invalidate_report_glob report_id).data := by
  have h1 : colons ['i', 'n', 'f', 'o', 'b', 'i', ':'] = 1 := by decide
  have h2 : colons ['*', ':'] = 1 := by decide
  have h3 : colons [':', '*'] = 1 := by decide
  simp only [invalidate_report_glob, delete_glob, data_append, colons_append]
  omega

/-- Claim C1 is false of the code, which contradicts `invalidate_report`'s own
docstring ("Invalidate all caches for a report"): the keys stored by
`set_pivot` and `set_query` are `infobi:pivot:<hash12>` / `infobi:query:<hash12>`
— `make_key` hashes the report id into the 12 hex characters, so no stored
key's name contains the report identifier — while the deletion glob
`infobi:*:{report_id}:*:*` needs at least four colons in a matching key.
Stored keys have exactly two, so `invalidate_report` deletes none of them and
a subsequent get is still a hit, not a miss.  The hypothesis on `md5hex` holds
of MD5: `hexdigest()` produces only `0-9a-f`, never a colon. -/
theorem C1_invalidate_report_never_matches_stored_keys
    (md5hex : String → String) (report_id : Int) (config_hash query_hash : String)
    (hmd5 : ∀ s, ':' ∉ (md5hex s).data) :
    globMatch (invalidate_report_glob report_id).data
        (set_pivot_key md5hex report_id config_hash).data = false ∧
      globMatch (invalidate_report_glob report_id).data
        (set_query_key md5hex report_id query_hash).data = false := by
  constructor
  · by_contra hmatch
    rw [Bool.not_eq_false] at hmatch
    have hle := colons_le_of_globMatch _ _ hmatch
    have hkey : colons (set_pivot_key md5hex report_id config_hash).data = 2 :=
      colons_make_key md5hex "pivot" _ (by decide) hmd5
    have hglob := colons_invalidate_glob report_id
    omega
  · by_contra hmatch
    rw [Bool.not_eq_false] at hmatch
    have hle := colons_le_of_globMatch _ _ hmatch
    have hkey : colons (set_query_key md5hex report_id query_hash).data = 2 :=
      colons_make_key md5hex "query" _ (by decide) hmd5
    have hglob := colons_invalidate_glob report_id
    omega

/-- Witness for C1's bug theorem at a concrete input: report 1, an arbitrary
16-character config hash, and a digest function returning a fixed hex string
(as `hexdigest` does in shape). -/
theorem C1_invalidate_report_never_matches_stored_keys_witness :
    globMatch (invalidate_report_glob 1).data
        (set_pivot_key (fun _ => "d41d8cd98f00b204e9800998ecf8427e") 1 "abcdef0123456789").data
      = false := by
  have h := C1_invalidate_report_never_matches_stored_keys
    (fun _ => "d41d8cd98f00b204e9800998ecf8427e") 1 "abcdef0123456789" "q"
    (by
      intro s
      show ':' ∉ "d41d8cd98f00b204e9800998ecf8427e".data
      decide)
  exact h.1

/- § Pivot compiler (`QueryEngine.execute_pivot`).
Metrics and filters arrive as Python dicts; `Option` fields model
`dict.get` with its defaults.  The compiler below reproduces the SQL text
built by `execute_pivot`, whitespace included. -/

structure Metric where
  type? : Option String
  field? : Option String
  name? : Option String
  aggregation? : Option String
  revenueField? : Option String
  costField? : Option String
deriving DecidableEq, Repr

/-- A pivot filter entry `{type, value}` (`filter_def` in the source);
`value` is a mandatory key, `type` is read with `.get`. -/
structure PivotFilter where
  type? : Option String
  value : SqlVal
deriving DecidableEq, Repr

/-- An entry of the pivot `sort` list: `{colId: str, sort: 'asc'|'desc'}`. -/
structure SortItem where
  colId : String
  sort : String
deriving DecidableEq, Repr

/-- One SELECT-list expression per metric, or `none` when the metric is
skipped.  Margin branch: `rev = m.get('revenueField', m.get('field',
'Venduto'))`, `cost = m.get('costField', 'Costo')`, `col_name =
m.get('name', 'MarginePerc')`; the source repeats one identical f-string
under `if is_mssql:` and `else:` — both occurrences are the literal below
(leading newline, 28/32-space indentation, trailing 24 spaces, and the
`ROUND(CAST(... AS DECIMAL(10,2)), 2)` wrapper).  Non-margin branch:
`agg = m.get('aggregation', 'SUM').upper()`, `field = m.get('field', '')`,
`name = m.get('name', field)`, skipped when `field` is empty. -/
def metricSelectPart (d : Dialect) (m : Metric) : Option String :=
  if m.type? = some "margin" then
    let rev := m.revenueField?.getD (m.field?.getD "Venduto")
    let cost := m.costField?.getD "Costo"
    let col_name := m.name?.getD "MarginePerc"
    let rev_q := quoteCol d rev
    let cost_q := quoteCol d cost
    let col_name_q := quoteCol d col_name
    if d.is_mssql then
      some ("\n                            CASE \n                                WHEN SUM("
        ++ rev_q ++ ") = 0 THEN 0 \n                                ELSE ROUND(CAST((SUM("
        ++ rev_q ++ ") - SUM(" ++ cost_q ++ ")) * 100.0 / SUM(" ++ rev_q
        ++ ") AS DECIMAL(10,2)), 2)\n                            END AS " ++ col_name_q
        ++ "\n                        ")
    else
      some ("\n                            CASE \n                                WHEN SUM("
        ++ rev_q ++ ") = 0 THEN 0 \n                                ELSE ROUND(CAST((SUM("
        ++ rev_q ++ ") - SUM(" ++ cost_q ++ ")) * 100.0 / SUM(" ++ rev_q
        ++ ") AS DECIMAL(10,2)), 2)\n                            END AS " ++ col_name_q
        ++ "\n                        ")
  else
    let agg := pyUpper (m.aggregation?.getD "SUM")
    let field := m.field?.getD ""
    let name := m.name?.getD field
    if field ≠ "" then
      some (agg ++ "(" ++ quoteCol d field ++ ") AS " ++ quoteCol d name)
    else
      none

/-- `metric_names = {m.get('name', m.get('field')) for m in metrics}`;
an element is `none` when a metric has neither name nor field (Python puts
`None` in the set, which never equals a string key). -/
def metricNames (metrics : List Metric) : List (Option String) :=
  metrics.map (fun m => m.name?.orElse (fun _ => m.field?))

/-- The predicate text for one filter, or `none` for an unrecognized
`type` (the `else: continue` branch). -/
def pivotOp (fd : PivotFilter) : Option String :=
  let val := escapedVal fd.value
  if fd.type? = some "contains" then some ("LIKE '%" ++ val ++ "%'")
  else if fd.type? = some "equals" then some ("= '" ++ val ++ "'")
  else if fd.type? = some "greaterThan" then some ("> " ++ val)
  else if fd.type? = some "lessThan" then some ("< " ++ val)
  else none

/-- The single loop of `execute_pivot` that walks `filters.items()` and
appends each recognized predicate to `where_conditions` or
`having_conditions` according to `field in metric_names`. -/
def pivotConds (d : Dialect) (metric_names : List (Option String)) :
    List (String × PivotFilter) → List String × List String
  | [] => ([], [])
  | (field, fd) :: rest =>
    let restConds := pivotConds d metric_names rest
    match pivotOp fd with
    | none => restConds
    | some op =>
      if some field ∈ metric_names then
        (restConds.1, (quoteCol d field ++ " " ++ op) :: restConds.2)
      else
        ((quoteCol d field ++ " " ++ op) :: restConds.1, restConds.2)

/-- `QueryEngine.execute_pivot`'s SQL compilation: the identity case for an
empty request, otherwise the f-string assembly of SELECT / FROM / WHERE /
GROUP BY / HAVING / ORDER BY (each on its own 16-space-indented line, with a
12-space-indented closing line).  `filters` is the dict in insertion order;
`sort = []` models both Python `None` and `[]` (both falsy). -/
def pivotCompile (d : Dialect) (base_query : String) (group_by : List String)
    (metrics : List Metric) (filters : List (String × PivotFilter))
    (sort : List SortItem) : String :=
  if group_by = [] ∧ metrics = [] then base_query
  else
    let select_parts0 := group_by.map (quoteCol d) ++ metrics.filterMap (metricSelectPart d)
    let select_parts := if select_parts0 = [] then ["*"] else select_parts0
    let group_by_sql :=
      if group_by ≠ [] then
        "GROUP BY " ++ String.intercalate ", " (group_by.map (quoteCol d))
      else ""
    let order_by_sql :=
      if sort ≠ [] then
        "ORDER BY " ++ String.intercalate ", "
          (sort.map (fun s => quoteCol d s.colId ++ " " ++ pyUpper s.sort))
      else if group_by ≠ [] then
        "ORDER BY " ++ String.intercalate ", " (group_by.map (quoteCol d))
      else ""
    let conds := pivotConds d (metricNames metrics) filters
    let where_sql := if conds.1 ≠ [] then "WHERE " ++ String.intercalate " AND " conds.1 else ""
    let having_sql := if conds.2 ≠ [] then "HAVING " ++ String.intercalate " AND " conds.2 else ""
    "\n                SELECT " ++ String.intercalate ", " select_parts
      ++ "\n                FROM (" ++ base_query ++ ") AS base_data"
      ++ "\n                " ++ where_sql
      ++ "\n                " ++ group_by_sql
      ++ "\n                " ++ having_sql
      ++ "\n                " ++ order_by_sql
      ++ "\n            "

/-- The margin expression exactly as spec §4.2 / claim C2 write it (modelled
from the spec's words for refutation; the code's expression is in
`metricSelectPart`). -/
def specMarginExpr (q : String → String) (rev cost name : String) : String :=
  "CASE WHEN SUM(" ++ q rev ++ ") = 0 THEN 0 ELSE ROUND((SUM(" ++ q rev
    ++ ") - SUM(" ++ q cost ++ ")) * 100.0 / SUM(" ++ q rev ++ "), 2) END AS " ++ q name

/-- The margin expression the code actually emits, as one template over the
quoting function: the quotient is wrapped in `CAST(... AS DECIMAL(10,2))`
inside `ROUND`, and the expression is laid out over five indented lines. -/
def marginCaseExpr (q : String → String) (rev cost name : String) : String :=
  "\n                            CASE \n                                WHEN SUM("
    ++ q rev ++ ") = 0 THEN 0 \n                                ELSE ROUND(CAST((SUM("
    ++ q rev ++ ") - SUM(" ++ q cost ++ ")) * 100.0 / SUM(" ++ q rev
    ++ ") AS DECIMAL(10,2)), 2)\n                            END AS " ++ q name
    ++ "\n                        "

/-- The margin metric of the spec's end-to-end example:
`{name:"MarginePerc", kind:Margin{revenueField:"Sales", costField:"Cost"}}`. -/
def exampleMarginMetric : Metric :=
  ⟨some "margin", none, some "MarginePerc", none, some "Sales", some "Cost"⟩

/-- Counterexample to claim C2 as stated: for the example margin metric the
compiler does not emit the spec's expression `CASE WHEN SUM(..) = 0 THEN 0
ELSE ROUND((..) * 100.0 / SUM(..), 2) END` — the emitted expression inserts
`CAST(... AS DECIMAL(10,2))` around the quotient (and multi-line layout). -/
theorem C2_margin_formula_counterexample :
    metricSelectPart .postgresql exampleMarginMetric ≠
      some (specMarginExpr (quoteCol .postgresql) "Sales" "Cost" "MarginePerc") := by
  decide

set_option maxRecDepth 8192 in
/-- Amended claim C2: for every metric of margin kind, under every dialect,
the compiler emits the guarded expression
`CASE WHEN SUM(q rev) = 0 THEN 0 ELSE ROUND(CAST((SUM(q rev) - SUM(q cost))
* 100.0 / SUM(q rev) AS DECIMAL(10,2)), 2) END AS q name` — identical under
all three dialects up to the dialect's quoting function — and the example
request `metrics=[MarginePerc margin over Sales/Cost]`, `group_by=[Region]`
compiles to exactly the SQL below (PostgreSQL quoting shown). -/
theorem C2_margin_guard_dialect_invariant :
    (∀ (d : Dialect) (m : Metric), m.type? = some "margin" →
      metricSelectPart d m = some (marginCaseExpr (quoteCol d)
        (m.revenueField?.getD (m.field?.getD "Venduto"))
        (m.costField?.getD "Costo")
        (m.name?.getD "MarginePerc"))) ∧
    pivotCompile .postgresql "base" ["Region"] [exampleMarginMetric] [] [] =
      "\n                SELECT \"Region\", \n                            CASE \n                                WHEN SUM(\"Sales\") = 0 THEN 0 \n                                ELSE ROUND(CAST((SUM(\"Sales\") - SUM(\"Cost\")) * 100.0 / SUM(\"Sales\") AS DECIMAL(10,2)), 2)\n                            END AS \"MarginePerc\"\n                        \n                FROM (base) AS base_data\n                \n                GROUP BY \"Region\"\n                \n                ORDER BY \"Region\"\n            " := by
  constructor
  · intro d m h
    cases d <;> simp [metricSelectPart, h, marginCaseExpr, Dialect.is_mssql]
  · rfl

/-- Witness for C2's amended theorem: the MSSQL rendering of the example
margin metric. -/
theorem C2_margin_guard_dialect_invariant_witness :
    metricSelectPart .mssql exampleMarginMetric =
      some (marginCaseExpr (quoteCol .mssql) "Sales" "Cost" "MarginePerc") :=
  C2_margin_guard_dialect_invariant.1 .mssql exampleMarginMetric rfl

/-- Counterexample to claim C4 as stated: a filter keyed by a metric's output
name but carrying an operator type outside the four recognized ones
(`between` here) compiles into NEITHER clause — the claim says every filter
keyed by a metric output name compiles into a HAVING predicate. -/
theorem C4_filter_routing_counterexample :
    metricNames [(⟨some "sum", some "Sales", some "M", none, none, none⟩ : Metric)]
        = [some "M"] ∧
      pivotConds .postgresql
        (metricNames [(⟨some "sum", some "Sales", some "M", none, none, none⟩ : Metric)])
        [("M", ⟨some "between", .vint 5⟩)] = ([], []) := by
  constructor
  · rfl
  · rfl

/-- Amended claim C4: among the filters with a recognized operator type, the
ones keyed by a metric output name compile into HAVING conditions (against
the quoted aggregated alias), all others into WHERE conditions (against the
quoted raw column), each into exactly one of the two lists and in filter
order; filters with an unrecognized operator type contribute to neither. -/
theorem C4_filter_routing (d : Dialect) (metrics : List Metric)
    (filters : List (String × PivotFilter)) :
    (pivotConds d (metricNames metrics) filters).1 =
        filters.filterMap (fun p =>
          match pivotOp p.2 with
          | some op =>
            if some p.1 ∈ metricNames metrics then none
            else some (quoteCol d p.1 ++ " " ++ op)
          | none => none) ∧
      (pivotConds d (metricNames metrics) filters).2 =
        filters.filterMap (fun p =>
          match pivotOp p.2 with
          | some op =>
            if some p.1 ∈ metricNames metrics then some (quoteCol d p.1 ++ " " ++ op)
            else none
          | none => none) := by
  induction filters with
  | nil => exact ⟨rfl, rfl⟩
  | cons p rest ih =>
    obtain ⟨f, fd⟩ := p
    obtain ⟨ih1, ih2⟩ := ih
    constructor <;>
      · simp only [pivotConds, List.filterMap_cons]
        cases hop : pivotOp fd <;>
          simp only [hop, ih1, ih2] <;>
          by_cases hmem : some f ∈ metricNames metrics <;>
            simp [hmem]

/-- Claim C9: a pivot filter whose operator type is none of `contains`,
`equals`, `greaterThan`, `lessThan` is silently skipped (`continue`), so a
request all of whose filters have unrecognized types compiles to exactly the
SQL of the same request with no filters at all. -/
theorem C9_unknown_filter_types_skipped (d : Dialect) (base_query : String)
    (group_by : List String) (metrics : List Metric)
    (filters : List (String × PivotFilter)) (sort : List SortItem)
    (h : ∀ p ∈ filters, p.2.type? ∉
      ([some "contains", some "equals", some "greaterThan", some "lessThan"] :
        List (Option String))) :
    pivotCompile d base_query group_by metrics filters sort =
      pivotCompile d base_query group_by metrics [] sort := by
  have hconds : pivotConds d (metricNames metrics) filters = ([], []) := by
    induction filters with
    | nil => rfl
    | cons p rest ih =>
      have hp := h p (List.mem_cons_self _ _)
      simp only [List.mem_cons, List.mem_singleton, not_or] at hp
      have hop : pivotOp p.2 = none := by
        simp [pivotOp, hp.1, hp.2.1, hp.2.2.1, hp.2.2.2]
      obtain ⟨f, fd⟩ := p
      simp only [pivotConds, hop]
      exact ih (fun q hq => h q (List.mem_cons_of_mem _ hq))
  have hnil : pivotConds d (metricNames metrics) [] = ([], []) := rfl
  simp only [pivotCompile, hconds, hnil]

/-- Witness for C9 at a concrete input: one `between`-typed filter compiles
to the same SQL as no filters. -/
theorem C9_unknown_filter_types_skipped_witness :
    pivotCompile .postgresql "b" ["g"] [] [("X", ⟨some "between", .vint 1⟩)] [] =
      pivotCompile .postgresql "b" ["g"] [] [] [] :=
  C9_unknown_filter_types_skipped .postgresql "b" ["g"] []
    [("X", ⟨some "between", .vint 1⟩)] [] (by decide)

/- § Grid engine (`QueryEngine.execute_grid_query`) and the
`/reports/{id}/grid` endpoint. -/

/-- The fields of `FilterModel` the engine reads: `type` and `filter`
(`filterType` / `filterTo` are never consulted). -/
structure GFilter where
  type : String
  filter : SqlVal
deriving DecidableEq, Repr

/-- `"".join(c for c in col if c.isalnum() or c in '_')` — the
identifier sanitization the grid, drill and column-values code all repeat
verbatim.  (Python's `str.isalnum` on ASCII identifiers coincides with
`Char.isAlphanum`.) -/
def clean_ident (s : String) : String :=
  ⟨s.data.filter (fun c => c.isAlphanum || c = '_')⟩

/-- One WHERE predicate of `execute_grid_query` for a `filterModel` entry,
`none` when the filter type is not `contains`/`equals`/`startsWith`. -/
def gridFilterClause (col : String) (fd : GFilter) : Option String :=
  let clean_col := clean_ident col
  if fd.type = "contains" then
    some (clean_col ++ " LIKE '%" ++ escapedVal fd.filter ++ "%'")
  else if fd.type = "equals" then
    match fd.filter with
    | .vstr s => some (clean_col ++ " = '" ++ sqlEscape s ++ "'")
    | .vint n => some (clean_col ++ " = " ++ toString n)
  else if fd.type = "startsWith" then
    some (clean_col ++ " LIKE '" ++ escapedVal fd.filter ++ "%'")
  else
    none

/-- The `where_clauses` list of `execute_grid_query`, in `filterModel`
order. -/
def gridWhereClauses (filterModel : List (String × GFilter)) : List String :=
  filterModel.filterMap (fun p => gridFilterClause p.1 p.2)

/-- `where_sql = " WHERE " + " AND ".join(where_clauses) if where_clauses
else ""` (note the leading space). -/
def grid_where_sql (filterModel : List (String × GFilter)) : String :=
  if gridWhereClauses filterModel ≠ [] then
    " WHERE " ++ String.intercalate " AND " (gridWhereClauses filterModel)
  else ""

/-- `order_sql` from `sortModel`: sanitized column, `DESC` exactly when the
direction string is `"desc"`, else `ASC`; leading space when non-empty. -/
def grid_order_sql (sortModel : List SortItem) : String :=
  let order_clauses := sortModel.map (fun s =>
    clean_ident s.colId ++ " " ++ (if s.sort = "desc" then "DESC" else "ASC"))
  if order_clauses ≠ [] then " ORDER BY " ++ String.intercalate ", " order_clauses
  else ""

/-- `GridRequest`: `startRow`, `endRow`, `sortModel`, `filterModel`
(`groupKeys` is unused by the flat grid). -/
structure GridRequest where
  startRow : Int
  endRow : Int
  sortModel : List SortItem
  filterModel : List (String × GFilter)
deriving DecidableEq, Repr

/-- The two SQL statements and pagination parameters `execute_grid_query`
builds. -/
structure GridPlan where
  count_query : String
  data_query : String
  limit : Int
  offset : Int
deriving DecidableEq, Repr

/-- The SQL-building part of `execute_grid_query`: wrapped base, shared
WHERE, count query over the same filtered structure, and the page query with
`OFFSET … ROWS FETCH NEXT … ROWS ONLY` (MSSQL, with the `ORDER BY (SELECT
NULL)` fallback when no sort is requested) or `LIMIT … OFFSET …`
(PostgreSQL/MySQL). -/
def execute_grid_query_plan (is_mssql : Bool) (base_query : String)
    (req : GridRequest) : GridPlan :=
  let where_sql := grid_where_sql req.filterModel
  let order_sql := grid_order_sql req.sortModel
  let wrapped_base := "SELECT * FROM (" ++ base_query ++ ") AS base"
  let full_sql_structure := wrapped_base ++ " " ++ where_sql
  let count_query :=
    "SELECT COUNT(*) as total FROM (" ++ full_sql_structure ++ ") AS count_tbl"
  let limit := req.endRow - req.startRow
  let offset := req.startRow
  let data_query :=
    if is_mssql then
      let order_sql2 := if order_sql = "" then "ORDER BY (SELECT NULL)" else order_sql
      full_sql_structure ++ " " ++ order_sql2 ++ " OFFSET " ++ toString offset
        ++ " ROWS FETCH NEXT " ++ toString limit ++ " ROWS ONLY"
    else
      full_sql_structure ++ " " ++ order_sql ++ " LIMIT " ++ toString limit
        ++ " OFFSET " ++ toString offset
  ⟨count_query, data_query, limit, offset⟩

/-- Relational semantics of the pagination clause the page query carries:
from the filtered result set, skip `offset` rows and return at most `limit`
rows. -/
def paginate {α : Type} (rows : List α) (limit offset : Int) : List α :=
  (rows.drop offset.toNat).take limit.toNat

/-- The `/reports/{report_id}/grid` endpoint's response body:
`{"rows": rows, "lastRow": total_count}` with the two results of
`execute_grid_query`. -/
structure GridResponse (α : Type) where
  rows : List α
  lastRow : Int

/-- `get_report_grid_data` builds its response from `execute_grid_query`'s
`(rows, total_count)` unchanged. -/
def get_report_grid_data {α : Type} (rows : List α) (total_count : Int) :
    GridResponse α :=
  ⟨rows, total_count⟩

/-- Claim C7: with `startRow ≤ endRow`, the page query paginates with
`limit = endRow - startRow` and `offset = startRow`, so (under the
drop/take semantics of `LIMIT`/`OFFSET` and `OFFSET … FETCH NEXT`) the page
never exceeds `endRow - startRow` rows; the count query is built over
exactly the filtered structure (same WHERE clause) that the page query
extends; and the endpoint's `lastRow` is the count-query result unchanged. -/
theorem C7_grid_bound_and_count {α : Type} (is_mssql : Bool) (base_query : String)
    (req : GridRequest) (filtered_rows : List α) (total_count : Int)
    (h : req.startRow ≤ req.endRow) :
    (execute_grid_query_plan is_mssql base_query req).limit = req.endRow - req.startRow ∧
      (execute_grid_query_plan is_mssql base_query req).offset = req.startRow ∧
      (paginate filtered_rows (execute_grid_query_plan is_mssql base_query req).limit
          (execute_grid_query_plan is_mssql base_query req).offset).length ≤
        (req.endRow - req.startRow).toNat ∧
      (execute_grid_query_plan is_mssql base_query req).count_query =
        "SELECT COUNT(*) as total FROM (" ++ ("SELECT * FROM (" ++ base_query
          ++ ") AS base" ++ " " ++ grid_where_sql req.filterModel) ++ ") AS count_tbl" ∧
      (∃ pagination_suffix,
        (execute_grid_query_plan is_mssql base_query req).data_query =
          ("SELECT * FROM (" ++ base_query ++ ") AS base" ++ " "
            ++ grid_where_sql req.filterModel) ++ pagination_suffix) ∧
      (get_report_grid_data
          (paginate filtered_rows (execute_grid_query_plan is_mssql base_query req).limit
            (execute_grid_query_plan is_mssql base_query req).offset)
          total_count).lastRow = total_count := by
  refine ⟨rfl, rfl, ?_, rfl, ?_, rfl⟩
  · exact List.length_take_le _ _
  · cases is_mssql
    · exact ⟨" " ++ grid_order_sql req.sortModel ++ " LIMIT "
          ++ toString (req.endRow - req.startRow) ++ " OFFSET " ++ toString req.startRow, by
        simp [execute_grid_query_plan, String.append_assoc]⟩
    · exact ⟨" " ++ (if grid_order_sql req.sortModel = "" then "ORDER BY (SELECT NULL)"
            else grid_order_sql req.sortModel) ++ " OFFSET " ++ toString req.startRow
          ++ " ROWS FETCH NEXT " ++ toString (req.endRow - req.startRow) ++ " ROWS ONLY", by
        simp [execute_grid_query_plan, String.append_assoc]⟩

/-- Witness for C7 at a concrete input (MSSQL, rows 0–100, three filtered
rows): the page bound instance. -/
theorem C7_grid_bound_and_count_witness :
    (paginate [10, 20, 30] (execute_grid_query_plan true "b" ⟨0, 100, [], []⟩).limit
        (execute_grid_query_plan true "b" ⟨0, 100, [], []⟩).offset).length ≤
      ((100 : Int) - 0).toNat :=
  (C7_grid_bound_and_count true "b" ⟨0, 100, [], []⟩ [10, 20, 30] 3 (by decide)).2.2.1

/-- Claim C10: on MSSQL with an empty `sortModel`, the page query inserts
`ORDER BY (SELECT NULL)` before `OFFSET … ROWS FETCH NEXT … ROWS ONLY`, so
the MSSQL pagination clause is never emitted without an ORDER BY. -/
theorem C10_mssql_pagination_has_order_by (base_query : String) (req : GridRequest)
    (h : req.sortModel = []) :
    (execute_grid_query_plan true base_query req).data_query =
      "SELECT * FROM (" ++ base_query ++ ") AS base" ++ " "
        ++ grid_where_sql req.filterModel ++ " " ++ "ORDER BY (SELECT NULL)"
        ++ " OFFSET " ++ toString req.startRow ++ " ROWS FETCH NEXT "
        ++ toString (req.endRow - req.startRow) ++ " ROWS ONLY" := by
  obtain ⟨s, e, sm, fm⟩ := req
  cases h
  have horder : grid_order_sql [] = "" := rfl
  simp [execute_grid_query_plan, horder]

/-- Witness for C10: a concrete unsorted MSSQL grid request with one filter. -/
theorem C10_mssql_pagination_has_order_by_witness :
    (execute_grid_query_plan true "t" ⟨0, 50, [], [("a", ⟨"equals", .vstr "x"⟩)]⟩).data_query =
      "SELECT * FROM (" ++ "t" ++ ") AS base" ++ " "
        ++ grid_where_sql [("a", ⟨"equals", .vstr "x"⟩)] ++ " " ++ "ORDER BY (SELECT NULL)"
        ++ " OFFSET " ++ toString (0 : Int) ++ " ROWS FETCH NEXT "
        ++ toString ((50 : Int) - 0) ++ " ROWS ONLY" :=
  C10_mssql_pagination_has_order_by "t" ⟨0, 50, [], [("a", ⟨"equals", .vstr "x"⟩)]⟩ rfl

/- § Drill engine (`QueryEngine.execute_pivot_drill`). -/

/-- A `valueCols` entry `{colId, aggFunc}`. -/
structure ValueCol where
  colId : String
  aggFunc? : Option String
deriving DecidableEq, Repr

/-- `PivotDrillRequest` fields the drill engine reads (`sortModel`,
`startRow`, `endRow` are never consulted by `execute_pivot_drill`). -/
structure PivotDrillRequest where
  rowGroupCols : List String
  valueCols : List ValueCol
  groupKeys : List SqlVal
  filterModel : List (String × GFilter)
  pivotCols : List String
deriving DecidableEq, Repr

/-- The ancestor-path constraints: one equality per `groupKeys[idx]` against
`rowGroupCols[idx]`, string keys quote-escaped and quoted, other keys
embedded bare. -/
def pathClauses (rowGroupCols : List String) (groupKeys : List SqlVal) : List String :=
  (List.range groupKeys.length).map (fun idx =>
    let parent_col := rowGroupCols.getD idx ""
    match groupKeys.getD idx (.vstr "") with
    | .vstr k => parent_col ++ " = '" ++ sqlEscape k ++ "'"
    | .vint n => parent_col ++ " = " ++ toString n)

/-- One WHERE predicate of the drill engine for a `filterModel` entry: only
`contains` and `equals` are handled (no `startsWith` branch, unlike
`execute_grid_query`); anything else appends nothing. -/
def drillFilterClause (col : String) (fd : GFilter) : Option String :=
  let clean_col := clean_ident col
  if fd.type = "contains" then
    some (clean_col ++ " LIKE '%" ++ escapedVal fd.filter ++ "%'")
  else if fd.type = "equals" then
    match fd.filter with
    | .vstr s => some (clean_col ++ " = '" ++ sqlEscape s ++ "'")
    | .vint n => some (clean_col ++ " = " ++ toString n)
  else
    none

/-- The outcome of `execute_pivot_drill`'s pure part: either the early
`return [], 0, 0` (no SQL compiled or executed), or the compiled SQL. -/
inductive DrillResult where
  | terminal (rows : List (List (String × SqlVal))) (count : Nat)
  | query (sql : String)
deriving DecidableEq, Repr

/-- `execute_pivot_drill`'s control flow and SQL assembly: early return when
`len(groupKeys) >= len(rowGroupCols)`; otherwise group by the active column
`rowGroupCols[len(groupKeys)]`, WHERE = ancestor-path equalities followed by
the drill filter predicates, SELECT = active column as `key_val`, pivot
columns, then one aggregate per value column (`COUNT(*)` for count). -/
def execute_pivot_drill_plan (base_query : String) (req : PivotDrillRequest) :
    DrillResult :=
  let current_level := req.groupKeys.length
  if current_level ≥ req.rowGroupCols.length then .terminal [] 0
  else
    let group_col := req.rowGroupCols.getD current_level ""
    let where_clauses := pathClauses req.rowGroupCols req.groupKeys
      ++ req.filterModel.filterMap (fun p => drillFilterClause p.1 p.2)
    let where_sql :=
      if where_clauses ≠ [] then " WHERE " ++ String.intercalate " AND " where_clauses
      else ""
    let select_parts := [group_col ++ " as key_val"]
      ++ req.pivotCols.map (fun pc => pc ++ " as " ++ pc)
      ++ req.valueCols.map (fun vc =>
          let agg := pyUpper (vc.aggFunc?.getD "sum")
          if agg = "COUNT" then "COUNT(*) as " ++ vc.colId
          else agg ++ "(" ++ vc.colId ++ ") as " ++ vc.colId)
    let select_sql := String.intercalate ", " select_parts
    let group_by_sql := String.intercalate ", " ([group_col] ++ req.pivotCols)
    .query ("\n                SELECT " ++ select_sql
      ++ "\n                FROM (" ++ base_query ++ ") AS base"
      ++ "\n                " ++ where_sql
      ++ "\n                GROUP BY " ++ group_by_sql
      ++ "\n            ")

/-- Claim C5: a drill request that has descended through every grouping
column (`len(groupKeys) == len(rowGroupCols)`) returns `rows=[]`, `count=0`
directly — no SQL is compiled or executed. -/
theorem C5_drill_terminal (base_query : String) (req : PivotDrillRequest)
    (h : req.groupKeys.length = req.rowGroupCols.length) :
    execute_pivot_drill_plan base_query req = .terminal [] 0 := by
  simp [execute_pivot_drill_plan, h]

/-- Witness for C5: a fully-descended concrete drill request. -/
theorem C5_drill_terminal_witness :
    execute_pivot_drill_plan "b"
        ⟨["Region"], [⟨"Sales", some "sum"⟩], [.vstr "Europe"], [], []⟩ =
      .terminal [] 0 :=
  C5_drill_terminal "b" ⟨["Region"], [⟨"Sales", some "sum"⟩], [.vstr "Europe"], [], []⟩ rfl

/-- Modelled from the spec: claim C6 asserts the drill WHERE clause derives
its `filterModel` predicates "under the same operator mapping the grid
engine uses"; this variant of the drill compiler follows those words by
using the grid engine's `gridFilterClause` (which also handles
`startsWith`) — for comparison with `execute_pivot_drill_plan`. -/
def specDrillResult (base_query : String) (req : PivotDrillRequest) : DrillResult :=
  let current_level := req.groupKeys.length
  if current_level ≥ req.rowGroupCols.length then .terminal [] 0
  else
    let group_col := req.rowGroupCols.getD current_level ""
    let where_clauses := pathClauses req.rowGroupCols req.groupKeys
      ++ req.filterModel.filterMap (fun p => gridFilterClause p.1 p.2)
    let where_sql :=
      if where_clauses ≠ [] then " WHERE " ++ String.intercalate " AND " where_clauses
      else ""
    let select_parts := [group_col ++ " as key_val"]
      ++ req.pivotCols.map (fun pc => pc ++ " as " ++ pc)
      ++ req.valueCols.map (fun vc =>
          let agg := pyUpper (vc.aggFunc?.getD "sum")
          if agg = "COUNT" then "COUNT(*) as " ++ vc.colId
          else agg ++ "(" ++ vc.colId ++ ") as " ++ vc.colId)
    let select_sql := String.intercalate ", " select_parts
    let group_by_sql := String.intercalate ", " ([group_col] ++ req.pivotCols)
    .query ("\n                SELECT " ++ select_sql
      ++ "\n                FROM (" ++ base_query ++ ") AS base"
      ++ "\n                " ++ where_sql
      ++ "\n                GROUP BY " ++ group_by_sql
      ++ "\n            ")

/-- Counterexample to claim C6 as stated: on a drill request whose
`filterModel` holds a `startsWith` filter, the drill engine does NOT apply
the same operator mapping as the grid engine — the grid engine would emit
`Name LIKE 'A%'`, the drill engine silently drops the filter. -/
theorem C6_drill_filters_counterexample :
    execute_pivot_drill_plan "b"
        ⟨["Region", "Country"], [⟨"Sales", some "sum"⟩], [.vstr "Europe"],
          [("Name", ⟨"startsWith", .vstr "A"⟩)], []⟩ ≠
      specDrillResult "b"
        ⟨["Region", "Country"], [⟨"Sales", some "sum"⟩], [.vstr "Europe"],
          [("Name", ⟨"startsWith", .vstr "A"⟩)], []⟩ := by
  decide

/-- Amended claim C6: for a drill request with `depth = len(groupKeys) <
len(rowGroupCols)`, (1) the i-th ancestor-path predicate binds
`rowGroupCols[i] = groupKeys[i]`, strings quote-escaped and quoted,
non-strings bare; (2) the `filterModel` predicates use the grid engine's
operator mapping restricted to `contains`/`equals` — `startsWith` (and any
other type) is skipped; (3) the compiled statement's WHERE clause is the
conjunction of the path predicates followed by those filter predicates, and
it groups by the active column `rowGroupCols[depth]` (then any pivot
columns); and (4) the example `rowGroupCols=[Region,Country]`,
`groupKeys=[Europe]`, `valueCols=[Sales sum]` groups by `Country` filtered
to `Region = 'Europe'`. -/
theorem C6_drill_where_and_group_by :
    (∀ (cols : List String) (keys : List SqlVal) (idx : Nat), idx < keys.length →
      (pathClauses cols keys).getD idx "" =
        (match keys.getD idx (.vstr "") with
         | .vstr k => cols.getD idx "" ++ " = '" ++ sqlEscape k ++ "'"
         | .vint n => cols.getD idx "" ++ " = " ++ toString n)) ∧
    (∀ (col : String) (fd : GFilter),
      drillFilterClause col fd =
        if fd.type = "startsWith" then none else gridFilterClause col fd) ∧
    (∀ (base_query : String) (req : PivotDrillRequest),
      req.groupKeys.length < req.rowGroupCols.length →
      execute_pivot_drill_plan base_query req = .query
        ("\n                SELECT "
          ++ String.intercalate ", "
            ([req.rowGroupCols.getD req.groupKeys.length "" ++ " as key_val"]
              ++ req.pivotCols.map (fun pc => pc ++ " as " ++ pc)
              ++ req.valueCols.map (fun vc =>
                  if pyUpper (vc.aggFunc?.getD "sum") = "COUNT" then "COUNT(*) as " ++ vc.colId
                  else pyUpper (vc.aggFunc?.getD "sum") ++ "(" ++ vc.colId ++ ") as " ++ vc.colId))
          ++ "\n                FROM (" ++ base_query ++ ") AS base"
          ++ "\n                "
          ++ (if pathClauses req.rowGroupCols req.groupKeys
                ++ req.filterModel.filterMap (fun p => drillFilterClause p.1 p.2) ≠ [] then
                " WHERE " ++ String.intercalate " AND "
                  (pathClauses req.rowGroupCols req.groupKeys
                    ++ req.filterModel.filterMap (fun p => drillFilterClause p.1 p.2))
              else "")
          ++ "\n                GROUP BY "
          ++ String.intercalate ", "
              (req.rowGroupCols.getD req.groupKeys.length "" :: req.pivotCols)
          ++ "\n            ")) ∧
    execute_pivot_drill_plan "base"
        ⟨["Region", "Country"], [⟨"Sales", some "sum"⟩], [.vstr "Europe"], [], []⟩ =
      .query "\n                SELECT Country as key_val, SUM(Sales) as Sales\n                FROM (base) AS base\n                 WHERE Region = 'Europe'\n                GROUP BY Country\n            " := by
  refine ⟨?_, ?_, ?_, ?_⟩
  · intro cols keys idx hidx
    simp [pathClauses, List.getD_eq_getElem?_getD, List.getElem?_map, List.getElem?_range, hidx]
  · intro col fd
    by_cases h1 : fd.type = "contains"
    · simp [drillFilterClause, gridFilterClause, h1]
    · by_cases h2 : fd.type = "equals"
      · simp [drillFilterClause, gridFilterClause, h1, h2]
      · by_cases h3 : fd.type = "startsWith" <;>
          simp [drillFilterClause, gridFilterClause, h1, h2, h3]
  · intro base_query req h
    simp only [execute_pivot_drill_plan]
    rw [if_neg (by omega)]
    rfl
  · rfl

/-- Witness for (the first component of) C6's amended theorem at a concrete
ancestor path. -/
theorem C6_drill_where_and_group_by_witness :
    (pathClauses ["Region", "Country"] [.vstr "Europe"]).getD 0 "" = "Region = 'Europe'" :=
  C6_drill_where_and_group_by.1 ["Region", "Country"] [.vstr "Europe"] 0 (by decide)

/- § Distinct column values (`QueryEngine.get_column_values`). -/

/-- The SQL issued: `SELECT DISTINCT {clean_col} FROM ({base}) AS base ORDER
BY {clean_col}` with the column name sanitized by `clean_ident`. -/
def column_values_query (base_query column : String) : String :=
  "SELECT DISTINCT " ++ clean_ident column ++ " FROM (" ++ base_query
    ++ ") AS base ORDER BY " ++ clean_ident column

/-- The caller-visible behaviour of `get_column_values`: the whole body runs
under `try`, so an execution failure (`.error`) yields `[]`; on success the
column values are returned with `None` entries filtered out
(`[v for v in values if v is not None]`). -/
def get_column_values {α : Type} (dbResult : Except String (List (Option α))) : List α :=
  match dbResult with
  | .error _ => []
  | .ok values => values.filterMap id

/-- Claim C8: `get_column_values` never propagates an error — a failed
execution returns the empty sequence — and on success it returns the
fetched values with nulls removed; the issued query is over the sanitized
column name (only alphanumerics and underscores survive); and whenever the
backend honours the issued `SELECT DISTINCT … ORDER BY` (its non-null
values form the ascending-sorted deduplication of the base column), the
returned sequence is ascending, duplicate-free and null-free. -/
theorem C8_column_values_error_handling :
    (∀ (e : String), get_column_values (α := Int) (.error e) = []) ∧
      (∀ (vs : List (Option Int)), get_column_values (.ok vs) = vs.filterMap id) ∧
      (∀ (column : String), ∀ c ∈ (clean_ident column).data, c.isAlphanum ∨ c = '_') ∧
      (∀ (base_col vs : List (Option Int)),
        vs.filterMap id = ((base_col.filterMap id).dedup.insertionSort (· ≤ ·)) →
          get_column_values (.ok vs) =
              (base_col.filterMap id).dedup.insertionSort (· ≤ ·) ∧
            (get_column_values (.ok vs)).Sorted (· ≤ ·) ∧
            (get_column_values (.ok vs)).Nodup) := by
  refine ⟨fun e => rfl, fun vs => rfl, ?_, ?_⟩
  · intro column c hc
    simp only [clean_ident, List.mem_filter] at hc
    rcases Bool.or_eq_true _ _ |>.mp hc.2 with h | h
    · exact Or.inl h
    · exact Or.inr (by simpa using h)
  · intro base_col vs hvs
    have hget : get_column_values (.ok vs) =
        (base_col.filterMap id).dedup.insertionSort (· ≤ ·) := by
      simpa [get_column_values] using hvs
    refine ⟨hget, ?_, ?_⟩
    · rw [hget]
      exact List.sorted_insertionSort _ _
    · rw [hget]
      exact ((List.perm_insertionSort _ _).nodup_iff).mpr (List.nodup_dedup _)

/-- Witness for C8 at concrete data: base column `[some 3, none, some 1]`,
backend result `[some 1, some 3]`. -/
theorem C8_column_values_error_handling_witness :
    get_column_values (.ok ([some 1, some 3] : List (Option Int))) =
        ((([some 3, none, some 1] : List (Option Int)).filterMap id).dedup.insertionSort (· ≤ ·)) ∧
      (get_column_values (.ok ([some 1, some 3] : List (Option Int)))).Sorted (· ≤ ·) ∧
      (get_column_values (.ok ([some 1, some 3] : List (Option Int)))).Nodup :=
  C8_column_values_error_handling.2.2.2 [some 3, none, some 1] [some 1, some 3] (by decide)

/- § Config hash (`QueryEngine.hash_config`).
`json.dumps(config, sort_keys=True)` (default separators `", "` / `": "`)
followed by `md5(...).hexdigest()[:16]`.  JSON values are modelled by
`JValue` (configs hold null/bool/int/str/list/dict); a Python dict appears
as a member list in insertion order with distinct keys.  `sort_keys=True`
sorts `dct.items()`; with distinct keys that is a sort by key, and sorting
the pairs after rendering each value (as below) yields the same list as
rendering after sorting, since the order depends on keys only. -/

/-- `keyLE` orders rendered members by their key. -/
def keyLE (a b : String × String) : Prop := a.1 ≤ b.1

instance : DecidableRel keyLE := fun a b => inferInstanceAs (Decidable (a.1 ≤ b.1))

instance : IsTotal (String × String) keyLE := ⟨fun a b => le_total a.1 b.1⟩

instance : IsTrans (String × String) keyLE := ⟨fun _ _ _ h1 h2 => le_trans h1 h2⟩

/-- The key sort `sort_keys=True` performs on a dict's rendered members. -/
def sortByKey (l : List (String × String)) : List (String × String) :=
  l.insertionSort keyLE

/-- JSON values as they appear in the engine's config dicts. -/
inductive JValue where
  | jnull
  | jbool (b : Bool)
  | jnum (n : Int)
  | jstr (s : String)
  | jarr (elems : List JValue)
  | jobj (members : List (String × JValue))
deriving Repr

/-- JSON string escaping for the characters occurring in config fields
(quote and backslash; `json.dumps`'s control/non-ASCII escapes do not
affect key ordering and are out of scope here). -/
def escape_json_char (c : Char) : List Char :=
  if c = '"' then ['\\', '"'] else if c = '\\' then ['\\', '\\'] else [c]

def encode_json_string (s : String) : String :=
  ⟨'"' :: (s.data.flatMap escape_json_char ++ ['"'])⟩

mutual
/-- `json.dumps(·, sort_keys=True)`: objects render their members sorted by
key and joined with `", "`, each member as `"key": value`. -/
def json_dumps : JValue → String
  | .jnull => "null"
  | .jbool true => "true"
  | .jbool false => "false"
  | .jnum n => toString n
  | .jstr s => encode_json_string s
  | .jarr elems => "[" ++ String.intercalate ", " (json_dumps_list elems) ++ "]"
  | .jobj members =>
      "\x7b" ++ String.intercalate ", "
        ((sortByKey (json_dumps_members members)).map
          (fun kv => encode_json_string kv.1 ++ ": " ++ kv.2)) ++ "\x7d"
def json_dumps_list : List JValue → List String
  | [] => []
  | v :: rest => json_dumps v :: json_dumps_list rest
def json_dumps_members : List (String × JValue) → List (String × String)
  | [] => []
  | (k, v) :: rest => (k, json_dumps v) :: json_dumps_members rest
end

/-- `QueryEngine.hash_config`: digest of the canonical dump, truncated to 16
hex characters; the MD5 hex digest function is a parameter of the
embedding. -/
def hash_config (md5hex : String → String) (config : JValue) : String :=
  (md5hex (json_dumps config)).take 16

mutual
/-- `JEquiv a b`: `a` and `b` represent the same JSON value up to the order
of object members, at every nesting level: object members of `a` must be
pairwise equivalent to a permutation of those of `b`, with distinct keys
(as Python dicts guarantee). -/
def JEquiv : JValue → JValue → Prop
  | .jnull, .jnull => True
  | .jbool a, .jbool b => a = b
  | .jnum a, .jnum b => a = b
  | .jstr a, .jstr b => a = b
  | .jarr xs, .jarr ys => JEquivList xs ys
  | .jobj l1, .jobj l2 =>
      (l1.map Prod.fst).Nodup ∧ ∃ l, JEquivMembers l1 l ∧ l.Perm l2
  | _, _ => False
def JEquivList : List JValue → List JValue → Prop
  | [], [] => True
  | x :: xs, y :: ys => JEquiv x y ∧ JEquivList xs ys
  | _, _ => False
def JEquivMembers : List (String × JValue) → List (String × JValue) → Prop
  | [], [] => True
  | (k1, v1) :: r1, (k2, v2) :: r2 => k1 = k2 ∧ JEquiv v1 v2 ∧ JEquivMembers r1 r2
  | _, _ => False
end

theorem json_dumps_members_eq_map (l : List (String × JValue)) :
    json_dumps_members l = l.map (fun kv => (kv.1, json_dumps kv.2)) := by
  induction l with
  | nil => rfl
  | cons kv rest ih =>
    obtain ⟨k, v⟩ := kv
    simp [json_dumps_members, ih]

theorem keys_json_dumps_members (l : List (String × JValue)) :
    (json_dumps_members l).map Prod.fst = l.map Prod.fst := by
  rw [json_dumps_members_eq_map, List.map_map]
  rfl

/-- Two member lists with the same distinct keys sort identically: a
permutation of rendered members with duplicate-free keys has a unique
key-sorted order. -/
theorem sortByKey_eq_of_perm (l1 l2 : List (String × String)) (hp : l1.Perm l2)
    (hn : (l1.map Prod.fst).Nodup) : sortByKey l1 = sortByKey l2 := by
  have hperm : (sortByKey l1).Perm (sortByKey l2) :=
    ((List.perm_insertionSort keyLE l1).trans hp).trans
      (List.perm_insertionSort keyLE l2).symm
  have hn1 : ((sortByKey l1).map Prod.fst).Nodup :=
    (((List.perm_insertionSort keyLE l1).map Prod.fst).nodup_iff).mpr hn
  have hn2 : ((sortByKey l2).map Prod.fst).Nodup :=
    ((hperm.map Prod.fst).nodup_iff).mp hn1
  have hs1 : (sortByKey l1).Sorted keyLE := List.sorted_insertionSort keyLE l1
  have hs2 : (sortByKey l2).Sorted keyLE := List.sorted_insertionSort keyLE l2
  have hlt1 : (sortByKey l1).Sorted (fun a b => a.1 < b.1) := by
    have hne : (sortByKey l1).Pairwise (fun a b => a.1 ≠ b.1) :=
      (List.pairwise_map).mp hn1
    exact (hs1.and hne).imp (fun h => lt_of_le_of_ne h.1 h.2)
  have hlt2 : (sortByKey l2).Sorted (fun a b => a.1 < b.1) := by
    have hne : (sortByKey l2).Pairwise (fun a b => a.1 ≠ b.1) :=
      (List.pairwise_map).mp hn2
    exact (hs2.and hne).imp (fun h => lt_of_le_of_ne h.1 h.2)
  haveI : IsAntisymm (String × String) (fun a b => a.1 < b.1) :=
    ⟨fun a b h1 h2 => absurd h2 (lt_asymm h1)⟩
  exact List.eq_of_perm_of_sorted hperm hlt1 hlt2

mutual
/-- Equivalent configurations have identical canonical dumps. -/
theorem json_dumps_eq_of_jequiv : ∀ (a b : JValue), JEquiv a b →
    json_dumps a = json_dumps b
  | .jnull, .jnull, _ => rfl
  | .jbool x, .jbool y, h => by
    have hxy : x = y := h
    rw [hxy]
  | .jnum x, .jnum y, h => by
    have hxy : x = y := h
    rw [hxy]
  | .jstr x, .jstr y, h => by
    have hxy : x = y := h
    rw [hxy]
  | .jarr xs, .jarr ys, h => by
    have h' : JEquivList xs ys := h
    have e := json_dumps_list_eq_of_jequiv xs ys h'
    simp only [json_dumps, e]
  | .jobj l1, .jobj l2, h => by
    have h' : (l1.map Prod.fst).Nodup ∧ ∃ l, JEquivMembers l1 l ∧ l.Perm l2 := h
    obtain ⟨hnodup, l, hmem, hperm⟩ := h'
    have h1 : json_dumps_members l1 = json_dumps_members l :=
      json_dumps_members_eq_of_jequiv l1 l hmem
    have h2 : (json_dumps_members l).Perm (json_dumps_members l2) := by
      rw [json_dumps_members_eq_map, json_dumps_members_eq_map l2]
      exact hperm.map _
    have hkeys : ((json_dumps_members l1).map Prod.fst).Nodup := by
      rw [keys_json_dumps_members]
      exact hnodup
    have hsort : sortByKey (json_dumps_members l1) = sortByKey (json_dumps_members l2) :=
      sortByKey_eq_of_perm _ _ (h1 ▸ h2) hkeys
    simp only [json_dumps, hsort]
theorem json_dumps_list_eq_of_jequiv : ∀ (xs ys : List JValue), JEquivList xs ys →
    json_dumps_list xs = json_dumps_list ys
  | [], [], _ => rfl
  | x :: xs, y :: ys, h => by
    have h' : JEquiv x y ∧ JEquivList xs ys := h
    have e1 := json_dumps_eq_of_jequiv x y h'.1
    have e2 := json_dumps_list_eq_of_jequiv xs ys h'.2
    simp only [json_dumps_list, e1, e2]
theorem json_dumps_members_eq_of_jequiv :
    ∀ (l1 l2 : List (String × JValue)), JEquivMembers l1 l2 →
      json_dumps_members l1 = json_dumps_members l2
  | [], [], _ => rfl
  | (k1, v1) :: r1, (k2, v2) :: r2, h => by
    have h' : k1 = k2 ∧ JEquiv v1 v2 ∧ JEquivMembers r1 r2 := h
    have e1 := json_dumps_eq_of_jequiv v1 v2 h'.2.1
    have e2 := json_dumps_members_eq_of_jequiv r1 r2 h'.2.2
    simp only [json_dumps_members, h'.1, e1, e2]
end

/-- Claim C3: `hash_config` is invariant under reordering of dict keys at
every nesting level — any digest function applied to the canonical
(`sort_keys=True`) dump gives the same hash for two configs representing
the same mapping. -/
theorem C3_hash_config_key_order_invariant (md5hex : String → String)
    (c1 c2 : JValue) (h : JEquiv c1 c2) :
    hash_config md5hex c1 = hash_config md5hex c2 := by
  unfold hash_config
  rw [json_dumps_eq_of_jequiv c1 c2 h]

/-- Witness for C3: two concrete nested configs differing only in key order
(at both levels) hash identically. -/
theorem C3_hash_config_key_order_invariant_witness :
    JEquiv (.jobj [("b", .jnum 2), ("a", .jobj [("y", .jnum 1), ("x", .jstr "v")])])
        (.jobj [("a", .jobj [("x", .jstr "v"), ("y", .jnum 1)]), ("b", .jnum 2)]) ∧
      hash_config id (.jobj [("b", .jnum 2), ("a", .jobj [("y", .jnum 1), ("x", .jstr "v")])]) =
        hash_config id (.jobj [("a", .jobj [("x", .jstr "v"), ("y", .jnum 1)]), ("b", .jnum 2)]) := by
  have hinner : JEquiv (.jobj [("y", .jnum 1), ("x", .jstr "v")])
      (.jobj [("x", .jstr "v"), ("y", .jnum 1)]) := by
    refine ⟨by decide, [("y", .jnum 1), ("x", .jstr "v")], ?_, ?_⟩
    · exact ⟨rfl, rfl, rfl, rfl, trivial⟩
    · exact List.Perm.swap _ _ _
  have h : JEquiv (.jobj [("b", .jnum 2), ("a", .jobj [("y", .jnum 1), ("x", .jstr "v")])])
      (.jobj [("a", .jobj [("x", .jstr "v"), ("y", .jnum 1)]), ("b", .jnum 2)]) := by
    refine ⟨by decide,
      [("b", .jnum 2), ("a", .jobj [("x", .jstr "v"), ("y", .jnum 1)])], ?_, ?_⟩
    · exact ⟨rfl, rfl, rfl, hinner, trivial⟩
    · exact List.Perm.swap _ _ _
  exact ⟨h, C3_hash_config_key_order_invariant id _ _ h⟩
